import Mathlib

/-!
# Verification of the homework status notifier bot (`homework.py`)

A shallow embedding of the single source file `homework.py`: a long-running
poll loop that fetches homework review statuses from a remote API, translates
them into human-readable messages, and sends them to a Telegram chat with
consecutive-duplicate suppression.

Python values flowing through the program (decoded JSON documents, submission
records) are modelled by `PyVal`; raised exceptions by `PyErr`; the external
world of one loop iteration (the HTTP exchange and whether the Telegram send
fails) by `CycleInput`. The functions `check_tokens`, `get_api_answer`,
`check_response`, `parse_status`, `send_message` and the loop body of `main`
are translated one-to-one from the source.
-/

/-- Python values relevant to the program: strings, integers, `None`,
lists and string-keyed dicts (decoded JSON documents). -/
inductive PyVal where
  | str : String → PyVal
  | int : Int → PyVal
  | null : PyVal
  | list : List PyVal → PyVal
  | dict : List (String × PyVal) → PyVal
deriving Repr

/-- Python exceptions raised (or caught) by the program. Each carries the
argument it was constructed with; `unboundLocal` models the interpreter's
`UnboundLocalError` for a named local variable, `attrError` the
`AttributeError` raised by `.get` on a non-dict. -/
inductive PyErr where
  | typeError : String → PyErr
  | keyError : String → PyErr
  | valueError : String → PyErr
  | connError : String → PyErr
  | attrError : String → PyErr
  | unboundLocal : String → PyErr
deriving Repr

/-- `str(e)` for an exception `e`, as interpolated by Python f-strings.
For `KeyError`, `str` returns the `repr` of the key, i.e. the message
wrapped in single quotes. The `UnboundLocalError` text is the interpreter's
fixed message for the named variable. -/
def PyErr.text : PyErr → String
  | .typeError m => m
  | .keyError m => "\x27" ++ m ++ "\x27"
  | .valueError m => m
  | .connError m => m
  | .attrError m => m
  | .unboundLocal v =>
      "local variable \x27" ++ v ++ "\x27 referenced before assignment"

/-- Python `type(v)` as it prints inside an f-string, e.g. `<class 'dict'>`. -/
def PyVal.typeName : PyVal → String
  | .str _ => "<class \x27str\x27>"
  | .int _ => "<class \x27int\x27>"
  | .null => "<class \x27NoneType\x27>"
  | .list _ => "<class \x27list\x27>"
  | .dict _ => "<class \x27dict\x27>"

/-- Python truthiness (`if v:`): empty string, zero, `None`, empty list and
empty dict are falsy; everything else is truthy. -/
def PyVal.truthy : PyVal → Bool
  | .str s => !(s == "")
  | .int n => !(n == 0)
  | .null => false
  | .list l => !l.isEmpty
  | .dict kvs => !kvs.isEmpty

/-- First-match lookup in a string-keyed dict body (Python dict indexing
restricted to the unique-key dicts this program builds). -/
def dictLookup (kvs : List (String × PyVal)) (key : String) : Option PyVal :=
  kvs.lookup key

/-- Substring test on character lists (Python `needle in hay` on strings). -/
def strContains (hay needle : List Char) : Bool :=
  (List.range (hay.length + 1)).any fun i => List.isPrefixOf needle (List.drop i hay)

/-- Python membership test `key in v` for a string `key`: key lookup on a
dict, element equality on a list, substring test on a string, and a
`TypeError` on non-iterable values (`int`, `None`). -/
def pyContains (v : PyVal) (key : String) : Except PyErr Bool :=
  match v with
  | .dict kvs => .ok (dictLookup kvs key).isSome
  | .list l => .ok (l.any fun e => match e with | .str s => s == key | _ => false)
  | .str s => .ok (strContains s.data key.data)
  | .int _ => .error (.typeError "argument of type \x27int\x27 is not iterable")
  | .null => .error (.typeError "argument of type \x27NoneType\x27 is not iterable")

/-- Python subscription `v[key]` with a string key: dict key lookup
(raising `KeyError` on a missing key), `TypeError` on other types. -/
def pyGetItem (v : PyVal) (key : String) : Except PyErr PyVal :=
  match v with
  | .dict kvs =>
      match dictLookup kvs key with
      | Option.some x => .ok x
      | Option.none => .error (.keyError key)
  | .list _ => .error (.typeError "list indices must be integers or slices, not str")
  | .str _ => .error (.typeError "string indices must be integers")
  | .int _ => .error (.typeError "\x27int\x27 object is not subscriptable")
  | .null => .error (.typeError "\x27NoneType\x27 object is not subscriptable")

/-- Python `v.get(key)` (dict method, default `None`); on a non-dict value
the attribute access raises `AttributeError`. -/
def pyGet (v : PyVal) (key : String) : Except PyErr PyVal :=
  match v with
  | .dict kvs =>
      match dictLookup kvs key with
      | Option.some x => .ok x
      | Option.none => .ok .null
  | .str _ => .error (.attrError "\x27str\x27 object has no attribute \x27get\x27")
  | .int _ => .error (.attrError "\x27int\x27 object has no attribute \x27get\x27")
  | .null => .error (.attrError "\x27NoneType\x27 object has no attribute \x27get\x27")
  | .list _ => .error (.attrError "\x27list\x27 object has no attribute \x27get\x27")

/-- `str(v)` as interpolated by f-strings, for the value kinds a submission
name can take in practice (strings interpolate verbatim, integers by their
decimal notation, `None` as `None`; container reprs are abbreviated since
no theorem depends on them). -/
def pyStr : PyVal → String
  | .str s => s
  | .int n => toString n
  | .null => "None"
  | .list _ => "[...]"
  | .dict _ => "\x7b...\x7d"

/-- `ENDPOINT` constant of `homework.py`. -/
def ENDPOINT : String := "https://practicum.yandex.ru/api/user_api/homework_statuses/"

/-- `HOMEWORK_VERDICTS` constant of `homework.py`: the static three-entry
status-to-verdict lookup. -/
def HOMEWORK_VERDICTS : List (String × String) :=
  [("approved", "Работа проверена: ревьюеру всё понравилось. Ура!"),
   ("reviewing", "Работа взята на проверку ревьюером."),
   ("rejected", "Работа проверена: у ревьюера есть замечания.")]

/-- Truthiness of one `os.getenv` result: `None` and the empty string are
falsy. -/
def envTruthy : Option String → Bool
  | Option.none => false
  | Option.some s => !(s == "")

/-- `check_tokens` from `homework.py`: `all` over the three credentials
`PRACTICUM_TOKEN`, `TELEGRAM_TOKEN`, `TELEGRAM_CHAT_ID` read from the
environment. -/
def check_tokens (practicumToken telegramToken telegramChatId : Option String) : Bool :=
  envTruthy practicumToken && envTruthy telegramToken && envTruthy telegramChatId

/-- Outcome of the raw `requests.get` call: either the transport raised a
`requests.RequestException` (with its text), or an HTTP response arrived
with a status code and an already-decoded JSON body. -/
inductive HttpResult where
  | exc : String → HttpResult
  | resp : Nat → PyVal → HttpResult
deriving Repr

/-- `get_api_answer` from `homework.py`. A `requests.RequestException` is
caught and only logged, after which the code falls through to
`homeworks.status_code` with `homeworks` unassigned, raising
`UnboundLocalError`; a non-200 status raises `ConnectionError` naming the
endpoint and the code; otherwise the decoded body is returned. -/
def get_api_answer (r : HttpResult) : Except PyErr PyVal :=
  match r with
  | .exc _ => .error (.unboundLocal "homeworks")
  | .resp code body =>
      if code ≠ 200 then
        .error (.connError ("Эндпоинт " ++ ENDPOINT ++ " недоступен. " ++
          "Код ответа API: " ++ toString code))
      else
        .ok body

/-- `check_response` from `homework.py`: shape-checks the decoded document
and extracts the first element of `homeworks`, or the empty dict `{}` as
the "no submission" sentinel. -/
def check_response (response : PyVal) : Except PyErr PyVal :=
  match response with
  | .dict kvs =>
      match dictLookup kvs "homeworks" with
      | Option.none => .error (.keyError "Отсутствует ключ \"homeworks\"")
      | Option.some hw =>
          match hw with
          | .list l =>
              match l with
              | [] => .ok (.dict [])
              | x :: _ => .ok x
          | _ => .error (.typeError ("Некорректный тип данных " ++ hw.typeName))
  | _ => .error (.typeError ("Некорректный тип данных: " ++ response.typeName))

/-- `parse_status` from `homework.py`: the verdict translator. A falsy
(empty) submission yields the fixed "status did not change" message;
otherwise the required keys and the status value are checked and the
templated status-changed message is composed. -/
def parse_status (homework : PyVal) : Except PyErr String :=
  if homework.truthy then
    match pyContains homework "homework_name" with
    | .error e => .error e
    | .ok hasName =>
      if !hasName then .error (.keyError "Отсутствует ключ \"homework_name\"") else
      match pyContains homework "status" with
      | .error e => .error e
      | .ok hasStatus =>
        if !hasStatus then .error (.keyError "Отсутствует ключ \"status\"") else
        match pyGetItem homework "status" with
        | .error e => .error e
        | .ok statusVal =>
          if !statusVal.truthy then .error (.valueError "Статус проверки работы пуст") else
          match statusVal with
          | .str status =>
            match (HOMEWORK_VERDICTS.lookup status) with
            | Option.none =>
                .error (.keyError "Статус проверки не соответствует ожидаемым вариантам")
            | Option.some verdict =>
                match pyGetItem homework "homework_name" with
                | .error e => .error e
                | .ok nameVal =>
                    .ok ("Изменился статус проверки работы \"" ++ pyStr nameVal ++
                      "\". " ++ verdict)
          | _ => .error (.keyError "Статус проверки не соответствует ожидаемым вариантам")
  else
    .ok "Статус проверки работы не изменился"

/-- The mutable state the `main` loop carries between cycles: the cursor
parameter dict `timestamp` and the last-sent memory `previous_message`. -/
structure LoopState where
  timestamp : PyVal
  previous_message : String
deriving Repr

/-- The external world of one loop iteration: the outcome of the HTTP
exchange, and whether `bot.send_message` raises `TelegramError` this cycle
(should it be called). -/
structure CycleInput where
  http : HttpResult
  sendFails : Bool
deriving Repr

/-- Observable outcome of one cycle: the state carried forward, the messages
the Notifier (`send_message`) was invoked with this cycle, and the subset of
those the transport actually delivered. -/
structure CycleOutcome where
  state : LoopState
  invoked : List String
  delivered : List String
deriving Repr

/-- `send_message` from `homework.py`: one attempt at delivery;
`TelegramError` is caught and only logged, so the function always returns
normally. Returns the list of messages actually delivered (empty when the
transport fails). -/
def send_message (sendFails : Bool) (message : String) : List String :=
  if sendFails then [] else [message]

/-- The `try` block of one iteration of `main`'s loop, up to the computation
of the candidate message: fetch, cursor reassignment
(`timestamp = {'from_date': current_date}`), validate, translate. Returns
the state as left by the block (the cursor reassignment happens after a
successful fetch, before validation) together with either the computed
message or the exception that escaped the block. -/
def try_phase (st : LoopState) (http : HttpResult) : LoopState × Except PyErr String :=
  match get_api_answer http with
  | .error e => (st, .error e)
  | .ok response =>
      match pyGet response "current_date" with
      | .error e => (st, .error e)
      | .ok currentDate =>
          let st1 : LoopState := { st with timestamp := .dict [("from_date", currentDate)] }
          match check_response response with
          | .error e => (st1, .error e)
          | .ok homework =>
              match parse_status homework with
              | .error e => (st1, .error e)
              | .ok message => (st1, .ok message)

/-- One full iteration of `main`'s `while True` loop: the `try` block, then
either the success path or the `except Exception` path, each performing the
duplicate check against `previous_message` before invoking `send_message`
and updating the memory. -/
def run_cycle (st : LoopState) (inp : CycleInput) : CycleOutcome :=
  match try_phase st inp.http with
  | (st1, .ok message) =>
      if message == st1.previous_message then
        { state := st1, invoked := [], delivered := [] }
      else
        { state := { st1 with previous_message := message },
          invoked := [message], delivered := send_message inp.sendFails message }
  | (st1, .error e) =>
      let message := "Сбой в работе программы: " ++ e.text
      if message == st1.previous_message then
        { state := st1, invoked := [], delivered := [] }
      else
        { state := { st1 with previous_message := message },
          invoked := [message], delivered := send_message inp.sendFails message }

/-- A finite run of the loop: cycles execute strictly sequentially, each
cycle's state feeding the next. Returns the final state and the
concatenated Notifier invocations. -/
def run_loop (st : LoopState) : List CycleInput → LoopState × List String
  | [] => (st, [])
  | inp :: rest =>
      let out := run_cycle st inp
      let tail := run_loop out.state rest
      (tail.1, out.invoked ++ tail.2)

/-- Outcome of `main`'s startup prologue: either `sys.exit()` before the bot
client is created (no network call, no loop), or the loop is entered with
the initial state. -/
inductive StartOutcome where
  | exit : StartOutcome
  | run : LoopState → StartOutcome
deriving Repr

/-- The startup prologue of `main`: `check_tokens` is consulted exactly once;
on failure the process exits before `telegram.Bot` is constructed; otherwise
the loop is entered with cursor `{'from_date': int(time.time())}` and empty
last-sent memory. -/
def main_start (practicumToken telegramToken telegramChatId : Option String)
    (startTime : Int) : StartOutcome :=
  if !check_tokens practicumToken telegramToken telegramChatId then
    .exit
  else
    .run { timestamp := .dict [("from_date", .int startTime)], previous_message := "" }

/-- The candidate message of a cycle as a function of the HTTP exchange
alone: the message `main` compares against `previous_message`, whether it
came from the success path or from the `except` formatting. -/
def cycle_message (http : HttpResult) : String :=
  match get_api_answer http with
  | .error e => "Сбой в работе программы: " ++ e.text
  | .ok response =>
      match pyGet response "current_date" with
      | .error e => "Сбой в работе программы: " ++ e.text
      | .ok _ =>
          match check_response response with
          | .error e => "Сбой в работе программы: " ++ e.text
          | .ok homework =>
              match parse_status homework with
              | .error e => "Сбой в работе программы: " ++ e.text
              | .ok message => message

/-- The validate-then-translate pipeline: `check_response` followed by
`parse_status`, as composed by `main`. -/
def validate_translate (response : PyVal) : Except PyErr String :=
  match check_response response with
  | .error e => .error e
  | .ok homework => parse_status homework

/-- Scenario B response of the spec:
`{"current_date": 200, "homeworks": [{"homework_name": "hw1", "status": "approved"}]}`. -/
def scenarioB_response : PyVal :=
  .dict [("current_date", .int 200),
         ("homeworks", .list [.dict [("homework_name", .str "hw1"),
                                     ("status", .str "approved")]])]

/-- Scenario C response of the spec:
`{"current_date": 300, "homeworks": [{"homework_name": "hw1", "status": "bogus"}]}`. -/
def scenarioC_response : PyVal :=
  .dict [("current_date", .int 300),
         ("homeworks", .list [.dict [("homework_name", .str "hw1"),
                                     ("status", .str "bogus")]])]

/-- A well-shaped response whose `homeworks` collection is non-empty but
whose first element is the empty mapping. -/
def emptyFirst_response : PyVal :=
  .dict [("current_date", .int 100), ("homeworks", .list [.dict []])]

/-! ## Structural lemmas about one cycle -/

/-- The `try` block never touches the last-sent memory. -/
lemma try_phase_prev (st : LoopState) (http : HttpResult) :
    (try_phase st http).1.previous_message = st.previous_message := by
  unfold try_phase
  cases get_api_answer http with
  | error e => rfl
  | ok response =>
    dsimp only
    cases pyGet response "current_date" with
    | error e => rfl
    | ok currentDate =>
      dsimp only
      cases check_response response with
      | error e => rfl
      | ok homework =>
        dsimp only
        cases parse_status homework with
        | error e => rfl
        | ok message => rfl

/-- The candidate message of a cycle (success message, or formatted error
report) depends only on the HTTP exchange, and equals `cycle_message`. -/
lemma try_phase_message (st : LoopState) (http : HttpResult) :
    (match (try_phase st http).2 with
      | .ok m => m
      | .error e => "Сбой в работе программы: " ++ e.text) = cycle_message http := by
  unfold try_phase cycle_message
  cases get_api_answer http with
  | error e => rfl
  | ok response =>
    dsimp only
    cases pyGet response "current_date" with
    | error e => rfl
    | ok currentDate =>
      dsimp only
      cases check_response response with
      | error e => rfl
      | ok homework =>
        dsimp only
        cases parse_status homework with
        | error e => rfl
        | ok message => rfl

/-- The cursor as left by the `try` block: unchanged when the fetch (or the
`.get` attribute access) raised, and overwritten with the echoed
`current_date` as soon as the fetch succeeded on a dict body — regardless of
whether validation or translation later failed. -/
lemma try_phase_timestamp (st : LoopState) (http : HttpResult) :
    (try_phase st http).1.timestamp =
      match get_api_answer http with
      | .error _ => st.timestamp
      | .ok response =>
          match pyGet response "current_date" with
          | .error _ => st.timestamp
          | .ok currentDate => .dict [("from_date", currentDate)] := by
  unfold try_phase
  cases get_api_answer http with
  | error e => rfl
  | ok response =>
    dsimp only
    cases pyGet response "current_date" with
    | error e => rfl
    | ok currentDate =>
      dsimp only
      cases check_response response with
      | error e => rfl
      | ok homework =>
        dsimp only
        cases parse_status homework with
        | error e => rfl
        | ok message => rfl

/-- After any cycle, the last-sent memory holds exactly the cycle's
candidate message (either it was just sent, or it was already there). -/
lemma run_cycle_prev (st : LoopState) (inp : CycleInput) :
    (run_cycle st inp).state.previous_message = cycle_message inp.http := by
  have hmsg := try_phase_message st inp.http
  unfold run_cycle
  rcases h : try_phase st inp.http with ⟨st1, r⟩
  rw [h] at hmsg
  cases r with
  | ok m =>
    dsimp only at hmsg ⊢
    rw [← hmsg]
    by_cases hb : m = st1.previous_message
    · simp [hb]
    · simp [hb]
  | error e =>
    dsimp only at hmsg ⊢
    rw [← hmsg]
    by_cases hb : ("Сбой в работе программы: " ++ e.text) = st1.previous_message
    · simp [hb]
    · simp [hb]

/-- The Notifier invocations of one cycle: none when the candidate message
equals the memory, exactly the candidate otherwise. -/
lemma run_cycle_invoked (st : LoopState) (inp : CycleInput) :
    (run_cycle st inp).invoked =
      if cycle_message inp.http = st.previous_message then []
      else [cycle_message inp.http] := by
  have hmsg := try_phase_message st inp.http
  have hprev := try_phase_prev st inp.http
  unfold run_cycle
  rcases h : try_phase st inp.http with ⟨st1, r⟩
  rw [h] at hmsg hprev
  dsimp only at hprev
  cases r with
  | ok m =>
    dsimp only at hmsg ⊢
    rw [← hmsg, ← hprev]
    by_cases hb : m = st1.previous_message
    · simp [hb]
    · simp [hb]
  | error e =>
    dsimp only at hmsg ⊢
    rw [← hmsg, ← hprev]
    by_cases hb : ("Сбой в работе программы: " ++ e.text) = st1.previous_message
    · simp [hb]
    · simp [hb]

/-- A cycle carries the `try` block's cursor forward unchanged through the
dedup/notify steps. -/
lemma run_cycle_timestamp (st : LoopState) (inp : CycleInput) :
    (run_cycle st inp).state.timestamp = (try_phase st inp.http).1.timestamp := by
  unfold run_cycle
  rcases h : try_phase st inp.http with ⟨st1, r⟩
  cases r with
  | ok m =>
    dsimp only
    by_cases hb : m = st1.previous_message
    · simp [hb]
    · simp [hb]
  | error e =>
    dsimp only
    by_cases hb : ("Сбой в работе программы: " ++ e.text) = st1.previous_message
    · simp [hb]
    · simp [hb]

/-- The deliveries of one cycle: nothing on a duplicate, otherwise whatever
the transport lets through of the single invocation. -/
lemma run_cycle_delivered (st : LoopState) (inp : CycleInput) :
    (run_cycle st inp).delivered =
      if cycle_message inp.http = st.previous_message then []
      else send_message inp.sendFails (cycle_message inp.http) := by
  have hmsg := try_phase_message st inp.http
  have hprev := try_phase_prev st inp.http
  unfold run_cycle
  rcases h : try_phase st inp.http with ⟨st1, r⟩
  rw [h] at hmsg hprev
  dsimp only at hprev
  cases r with
  | ok m =>
    dsimp only at hmsg ⊢
    rw [← hmsg, ← hprev]
    by_cases hb : m = st1.previous_message
    · simp [hb]
    · simp [hb]
  | error e =>
    dsimp only at hmsg ⊢
    rw [← hmsg, ← hprev]
    by_cases hb : ("Сбой в работе программы: " ++ e.text) = st1.previous_message
    · simp [hb]
    · simp [hb]

/-- Unfolding equation of `run_loop` on a non-empty input list. -/
lemma run_loop_cons (st : LoopState) (inp : CycleInput) (rest : List CycleInput) :
    run_loop st (inp :: rest) =
      ((run_loop (run_cycle st inp).state rest).1,
        (run_cycle st inp).invoked ++ (run_loop (run_cycle st inp).state rest).2) := rfl

/-- Core dedup invariant: along any run, the last-sent memory at the start
followed by the successive Notifier invocations has no two adjacent equal
entries. -/
lemma run_loop_chain (inputs : List CycleInput) : ∀ st : LoopState,
    List.Chain' (fun a b => a ≠ b) (st.previous_message :: (run_loop st inputs).2) := by
  induction inputs with
  | nil => intro st; simp [run_loop]
  | cons inp rest ih =>
    intro st
    rw [run_loop_cons]
    dsimp only
    rw [run_cycle_invoked]
    have hprev := run_cycle_prev st inp
    have htail := ih (run_cycle st inp).state
    rw [hprev] at htail
    by_cases hb : cycle_message inp.http = st.previous_message
    · rw [if_pos hb]
      rw [List.nil_append]
      rw [hb] at htail
      exact htail
    · rw [if_neg hb]
      rw [List.cons_append, List.nil_append]
      rw [List.chain'_cons]
      exact ⟨fun hEq => hb hEq.symm, htail⟩

/-- A templated status-changed message is never equal to the fixed
"status did not change" message, whatever the interpolated name and verdict:
the lengths already differ (34 + 3 + extras versus 35). -/
lemma changed_ne_unchanged (s t : String) :
    ("Изменился статус проверки работы \"" ++ s ++ "\". " ++ t) ≠
      "Статус проверки работы не изменился" := by
  intro h
  have hl := congrArg String.length h
  simp only [String.length_append] at hl
  have h1 : ("Изменился статус проверки работы \"").length = 34 := by decide
  have h2 : ("\". " : String).length = 3 := by decide
  have h3 : ("Статус проверки работы не изменился").length = 35 := by decide
  rw [h1, h2, h3] at hl
  omega

/-- Every successful translation of a truthy (non-empty) submission is a
templated status-changed message. -/
lemma parse_status_truthy_ok (x : PyVal) (hx : x.truthy = true) (m : String)
    (h : parse_status x = .ok m) :
    ∃ s t, m = "Изменился статус проверки работы \"" ++ s ++ "\". " ++ t := by
  unfold parse_status at h
  rw [hx, if_pos rfl] at h
  repeat' split at h
  all_goals first
    | exact ⟨_, _, ((Except.ok.injEq _ _).mp h).symm⟩
    | exact absurd h (by simp)

/-- The pipeline on a well-shaped response evaluates `parse_status` at the
first element of `homeworks`. -/
lemma validate_translate_first (kvs : List (String × PyVal)) (x : PyVal) (l : List PyVal)
    (hlook : dictLookup kvs "homeworks" = Option.some (.list (x :: l))) :
    validate_translate (.dict kvs) = parse_status x := by
  unfold validate_translate check_response
  dsimp only
  rw [hlook]

/-! ## Claim theorems -/

/-- Claim C1: across every sequence of cycles, the Notifier (`send_message`)
is never invoked twice in a row with an identical message string — status
messages and error reports alike — and the last-sent memory
(`previous_message`) changes only by a send of a message that differed from
it. The invocation trace, prefixed with the starting memory, has no two
adjacent equal entries. -/
theorem notifier_dedup_invariant :
    (∀ (st : LoopState) (inputs : List CycleInput),
      List.Chain' (fun a b => a ≠ b) (st.previous_message :: (run_loop st inputs).2))
    ∧ (∀ (st : LoopState) (inp : CycleInput),
      (run_cycle st inp).state.previous_message = st.previous_message ∨
        (run_cycle st inp).invoked = [(run_cycle st inp).state.previous_message]) := by
  constructor
  · exact fun st inputs => run_loop_chain inputs st
  · intro st inp
    rw [run_cycle_prev, run_cycle_invoked]
    by_cases hb : cycle_message inp.http = st.previous_message
    · exact Or.inl hb
    · right
      rw [if_neg hb]

/-- Claim C2 (amended): the cursor carried into the next cycle is unchanged
only when the *fetch* fails (transport exception or non-200 status); as soon
as the fetch succeeds on a dict body, the cursor is overwritten with the
response's `current_date` — even when validation or translation subsequently
fails, because `main` reassigns `timestamp` before calling `check_response`.
On a fully successful cycle the cursor is likewise `current_date`. -/
theorem cursor_update_amended (st : LoopState) (inp : CycleInput) :
    (∀ s, inp.http = .exc s → (run_cycle st inp).state.timestamp = st.timestamp)
    ∧ (∀ code body, inp.http = .resp code body → code ≠ 200 →
        (run_cycle st inp).state.timestamp = st.timestamp)
    ∧ (∀ kvs currentDate, inp.http = .resp 200 (.dict kvs) →
        dictLookup kvs "current_date" = Option.some currentDate →
        (run_cycle st inp).state.timestamp = .dict [("from_date", currentDate)]) := by
  refine ⟨?_, ?_, ?_⟩
  · intro s hhttp
    rw [run_cycle_timestamp, try_phase_timestamp, hhttp]
    rfl
  · intro code body hhttp hcode
    rw [run_cycle_timestamp, try_phase_timestamp, hhttp]
    simp [get_api_answer, hcode]
  · intro kvs currentDate hhttp hlk
    rw [run_cycle_timestamp, try_phase_timestamp, hhttp]
    simp [get_api_answer, pyGet, hlk]

/-- Claim C2, counterexample to the claim as stated: for the Scenario C
response (`current_date` 300, one submission with unrecognized status
"bogus"), translation fails and one error report is sent, yet the cursor IS
advanced to 300, replacing the previous cursor 100. -/
theorem cursor_advanced_on_translate_failure_cex :
    (run_cycle { timestamp := .dict [("from_date", .int 100)], previous_message := "" }
        { http := .resp 200 scenarioC_response, sendFails := false }).state.timestamp =
      .dict [("from_date", .int 300)]
    ∧ (run_cycle { timestamp := .dict [("from_date", .int 100)], previous_message := "" }
        { http := .resp 200 scenarioC_response, sendFails := false }).invoked =
      ["Сбой в работе программы: \x27Статус проверки не соответствует ожидаемым вариантам\x27"]
    ∧ PyVal.dict [("from_date", PyVal.int 300)] ≠ PyVal.dict [("from_date", PyVal.int 100)] := by
  refine ⟨rfl, rfl, by simp⟩

/-- Witness for `cursor_update_amended` at the Scenario C input. -/
theorem cursor_update_amended_witness :
    (run_cycle { timestamp := .dict [("from_date", .int 100)], previous_message := "" }
        { http := .resp 200 scenarioC_response, sendFails := false }).state.timestamp =
      .dict [("from_date", .int 300)] :=
  (cursor_update_amended
      { timestamp := .dict [("from_date", .int 100)], previous_message := "" }
      { http := .resp 200 scenarioC_response, sendFails := false }).2.2
    [("current_date", .int 300),
     ("homeworks", .list [.dict [("homework_name", .str "hw1"), ("status", .str "bogus")]])]
    (.int 300) rfl rfl

/-- Claim C3: feeding the loop the same API response in two consecutive
cycles yields exactly one Notifier invocation across the two cycles — the
first cycle sends the (new) candidate message, the second cycle computes an
identical message and suppresses it as a duplicate. -/
theorem idempotent_response_single_send (st : LoopState) (http : HttpResult)
    (sendFails1 sendFails2 : Bool)
    (hnew : cycle_message http ≠ st.previous_message) :
    (run_loop st [{ http := http, sendFails := sendFails1 },
                  { http := http, sendFails := sendFails2 }]).2 = [cycle_message http]
    ∧ (run_cycle (run_cycle st { http := http, sendFails := sendFails1 }).state
        { http := http, sendFails := sendFails2 }).invoked = [] := by
  have h1 := run_cycle_invoked st { http := http, sendFails := sendFails1 }
  have h2 := run_cycle_invoked (run_cycle st { http := http, sendFails := sendFails1 }).state
    { http := http, sendFails := sendFails2 }
  have hp := run_cycle_prev st { http := http, sendFails := sendFails1 }
  dsimp only at h1 h2 hp
  rw [hp] at h2
  simp only [if_pos rfl] at h2
  refine ⟨?_, h2⟩
  rw [run_loop_cons]
  dsimp only
  rw [run_loop_cons]
  dsimp only
  rw [h1, if_neg hnew, h2]
  simp [run_loop]

/-- Witness for `idempotent_response_single_send`: two cycles on the
Scenario B response from a fresh state send exactly once. -/
theorem idempotent_response_single_send_witness :
    (run_loop { timestamp := .dict [("from_date", .int 0)], previous_message := "" }
      [{ http := .resp 200 scenarioB_response, sendFails := false },
       { http := .resp 200 scenarioB_response, sendFails := false }]).2 =
      [cycle_message (.resp 200 scenarioB_response)] :=
  (idempotent_response_single_send
      { timestamp := .dict [("from_date", .int 0)], previous_message := "" }
      (.resp 200 scenarioB_response) false false (by decide)).1

/-- Claim C4: for every submission carrying a name and a status among the
three recognized codes, `parse_status` returns the fixed template populated
with the name and the verdict text from the static three-entry lookup
`HOMEWORK_VERDICTS`; any other status value yields an error. -/
theorem parse_status_template (name status : String) :
    ((HOMEWORK_VERDICTS.lookup status).isSome = true →
      parse_status (.dict [("homework_name", .str name), ("status", .str status)]) =
        .ok ("Изменился статус проверки работы \"" ++ name ++ "\". " ++
          (HOMEWORK_VERDICTS.lookup status).getD ""))
    ∧ ((HOMEWORK_VERDICTS.lookup status).isSome = false →
      ∃ e, parse_status (.dict [("homework_name", .str name), ("status", .str status)]) =
        .error e) := by
  have m1 : dictLookup [("homework_name", PyVal.str name), ("status", PyVal.str status)]
      "homework_name" = Option.some (PyVal.str name) := rfl
  have m2 : dictLookup [("homework_name", PyVal.str name), ("status", PyVal.str status)]
      "status" = Option.some (PyVal.str status) := rfl
  constructor
  · intro h
    have hne : (status == "") = false := by
      rcases hs : status == "" with _ | _
      · rfl
      · exfalso
        rw [beq_iff_eq.mp hs] at h
        simp [HOMEWORK_VERDICTS] at h
    rcases hlk : HOMEWORK_VERDICTS.lookup status with _ | v
    · rw [hlk] at h
      simp at h
    · unfold parse_status
      simp only [pyContains, pyGetItem, m1, m2, PyVal.truthy, hne, hlk, pyStr,
        Option.isSome_some, Bool.not_false, Bool.not_true, if_true, if_false,
        Option.getD_some]
      simp
  · intro h
    rcases hlk : HOMEWORK_VERDICTS.lookup status with _ | v
    · by_cases hs : status = ""
      · refine ⟨.valueError "Статус проверки работы пуст", ?_⟩
        subst hs
        unfold parse_status
        simp only [pyContains, pyGetItem, m1, m2, PyVal.truthy, Option.isSome_some]
        simp
      · have hne : (status == "") = false := by simpa using hs
        refine ⟨.keyError "Статус проверки не соответствует ожидаемым вариантам", ?_⟩
        unfold parse_status
        simp only [pyContains, pyGetItem, m1, m2, PyVal.truthy, hne, hlk,
          Option.isSome_some]
        simp
    · rw [hlk] at h
      simp at h

/-- Witness for `parse_status_template`: a recognized and an unrecognized
status at concrete inputs. -/
theorem parse_status_template_witness :
    parse_status (.dict [("homework_name", .str "hw1"), ("status", .str "approved")]) =
      .ok ("Изменился статус проверки работы \"" ++ "hw1" ++ "\". " ++
        (HOMEWORK_VERDICTS.lookup "approved").getD "")
    ∧ ∃ e, parse_status (.dict [("homework_name", .str "hw1"), ("status", .str "bogus")]) =
      .error e :=
  ⟨(parse_status_template "hw1" "approved").1 (by decide),
   (parse_status_template "hw1" "bogus").2 (by decide)⟩

/-- Claim C5: on a transport-level failure (`requests.RequestException`,
covering timeouts, refused connections, DNS failures) `get_api_answer` does
surface a hard failure to its caller — but only because the swallowed
exception leaves the local `homeworks` unassigned, so the subsequent
attribute access raises `UnboundLocalError` — and the resulting error-report
message does NOT name the endpoint, contradicting the claim. -/
theorem timeout_report_lacks_endpoint :
    get_api_answer (.exc "HTTPSConnectionPool: read timed out") =
      .error (.unboundLocal "homeworks")
    ∧ cycle_message (.exc "HTTPSConnectionPool: read timed out") =
      "Сбой в работе программы: local variable \x27homeworks\x27 referenced before assignment"
    ∧ strContains (cycle_message (.exc "HTTPSConnectionPool: read timed out")).data
        ENDPOINT.data = false := by
  exact ⟨rfl, by decide, by decide⟩

/-- Claim C6, counterexample to the claim as stated: when the transport send
fails (`TelegramError`), nothing is delivered — yet `previous_message` IS
updated to the undelivered message text, because `send_message` swallows the
error and `main` updates the memory unconditionally afterwards. -/
theorem memory_updated_on_failed_send_cex :
    (run_cycle { timestamp := .dict [("from_date", .int 0)], previous_message := "" }
        { http := .resp 200 scenarioB_response, sendFails := true }).delivered = []
    ∧ (run_cycle { timestamp := .dict [("from_date", .int 0)], previous_message := "" }
        { http := .resp 200 scenarioB_response, sendFails := true }).state.previous_message =
      "Изменился статус проверки работы \"hw1\". Работа проверена: ревьюеру всё понравилось. Ура!"
    ∧ ("Изменился статус проверки работы \"hw1\". Работа проверена: ревьюеру всё понравилось. Ура!" : String) ≠ "" := by
  exact ⟨rfl, by decide, by decide⟩

/-- Claim C6 (amended): on a cycle that invokes the Notifier while the
transport fails, the message is not delivered, yet the last-sent memory IS
set to the undelivered message text — so the same message is treated as a
duplicate (not as new) on following cycles. -/
theorem memory_update_ignores_transport (st : LoopState) (http : HttpResult) (m : String)
    (h : (run_cycle st { http := http, sendFails := true }).invoked = [m]) :
    (run_cycle st { http := http, sendFails := true }).delivered = []
    ∧ (run_cycle st { http := http, sendFails := true }).state.previous_message = m := by
  rw [run_cycle_invoked] at h
  dsimp only at h
  by_cases hb : cycle_message http = st.previous_message
  · rw [if_pos hb] at h
    exact absurd h (by simp)
  · rw [if_neg hb] at h
    have hm : cycle_message http = m := ((List.cons.injEq _ _ _ _).mp h).1
    constructor
    · rw [run_cycle_delivered]
      dsimp only
      rw [if_neg hb]
      rfl
    · rw [run_cycle_prev]
      exact hm

/-- Witness for `memory_update_ignores_transport` at the Scenario B response
with a failing transport. -/
theorem memory_update_ignores_transport_witness :
    (run_cycle { timestamp := .dict [("from_date", .int 0)], previous_message := "" }
        { http := .resp 200 scenarioB_response, sendFails := true }).delivered = []
    ∧ (run_cycle { timestamp := .dict [("from_date", .int 0)], previous_message := "" }
        { http := .resp 200 scenarioB_response, sendFails := true }).state.previous_message =
      cycle_message (.resp 200 scenarioB_response) :=
  memory_update_ignores_transport
    { timestamp := .dict [("from_date", .int 0)], previous_message := "" }
    (.resp 200 scenarioB_response) (cycle_message (.resp 200 scenarioB_response)) (by decide)

/-- Claim C7, counterexample to the claim as stated: the response whose
`homeworks` collection is non-empty but whose first element is the empty
mapping `{}` — an element missing the name field — is validated to the
sentinel value `{}` itself, and the pipeline yields the "status did not
change" message instead of a missing-key error: the sentinel IS confusable
with a submission record. -/
theorem empty_first_submission_cex :
    check_response emptyFirst_response = .ok (.dict [])
    ∧ validate_translate emptyFirst_response = .ok "Статус проверки работы не изменился"
    ∧ pyContains (PyVal.dict []) "homework_name" = .ok false := by
  exact ⟨rfl, rfl, rfl⟩

/-- Claim C7 (amended): for every well-shaped response with a non-empty
`homeworks` collection, if the first element is falsy (the empty mapping,
indistinguishable from the sentinel) the pipeline yields the "status did not
change" message; if it is truthy, the pipeline never yields that message —
in particular a truthy first element missing the name field fails with the
missing-key error. -/
theorem nonempty_homeworks_pipeline (kvs : List (String × PyVal)) (x : PyVal) (l : List PyVal)
    (hlook : dictLookup kvs "homeworks" = Option.some (.list (x :: l))) :
    (x.truthy = false →
      validate_translate (.dict kvs) = .ok "Статус проверки работы не изменился")
    ∧ (x.truthy = true → ∀ m, validate_translate (.dict kvs) = .ok m →
        m ≠ "Статус проверки работы не изменился")
    ∧ (x.truthy = true → pyContains x "homework_name" = .ok false →
        validate_translate (.dict kvs) =
          .error (.keyError "Отсутствует ключ \"homework_name\"")) := by
  have hvt := validate_translate_first kvs x l hlook
  refine ⟨?_, ?_, ?_⟩
  · intro hx
    rw [hvt]
    unfold parse_status
    rw [hx]
    rfl
  · intro hx m hm
    rw [hvt] at hm
    obtain ⟨s, t, hst⟩ := parse_status_truthy_ok x hx m hm
    rw [hst]
    exact changed_ne_unchanged s t
  · intro hx hcont
    rw [hvt]
    unfold parse_status
    rw [hx, if_pos rfl, hcont]
    simp

/-- Witness for `nonempty_homeworks_pipeline`: a truthy first element
missing the name field fails with the missing-key error. -/
theorem nonempty_homeworks_pipeline_witness :
    validate_translate (.dict [("homeworks", .list [.dict [("status", .str "approved")]])]) =
      .error (.keyError "Отсутствует ключ \"homework_name\"") :=
  (nonempty_homeworks_pipeline [("homeworks", .list [.dict [("status", .str "approved")]])]
    (.dict [("status", .str "approved")]) [] rfl).2.2 rfl rfl

/-- Claim C8: `check_response` fails with a wrong-type error naming the
offending type on a non-mapping document, with a missing-key error when the
`homeworks` key is absent, and with a wrong-type error naming the offending
type when `homeworks` is not a list; on a well-shaped document it returns
the first element of `homeworks` when non-empty and the empty sentinel `{}`
otherwise. -/
theorem check_response_shape (response : PyVal) :
    ((∀ kvs, response ≠ .dict kvs) →
      check_response response =
        .error (.typeError ("Некорректный тип данных: " ++ response.typeName)))
    ∧ (∀ kvs, response = .dict kvs →
        (dictLookup kvs "homeworks" = Option.none →
          check_response response = .error (.keyError "Отсутствует ключ \"homeworks\""))
        ∧ (∀ hw, dictLookup kvs "homeworks" = Option.some hw →
            ((∀ l, hw ≠ .list l) →
              check_response response =
                .error (.typeError ("Некорректный тип данных " ++ hw.typeName)))
            ∧ (hw = .list [] → check_response response = .ok (.dict []))
            ∧ (∀ x l, hw = .list (x :: l) → check_response response = .ok x))) := by
  constructor
  · intro hnd
    cases response with
    | dict kvs => exact absurd rfl (hnd kvs)
    | str s => rfl
    | int n => rfl
    | null => rfl
    | list l => rfl
  · intro kvs hresp
    subst hresp
    constructor
    · intro hnone
      unfold check_response
      dsimp only
      rw [hnone]
    · intro hw hsome
      refine ⟨?_, ?_, ?_⟩
      · intro hnl
        unfold check_response
        dsimp only
        rw [hsome]
        cases hw with
        | list l => exact absurd rfl (hnl l)
        | str s => rfl
        | int n => rfl
        | null => rfl
        | dict kvs2 => rfl
      · intro hl
        subst hl
        unfold check_response
        dsimp only
        rw [hsome]
      · intro x l hl
        subst hl
        unfold check_response
        dsimp only
        rw [hsome]

/-- Witness for `check_response_shape`: each of the five branches at a
concrete document. -/
theorem check_response_shape_witness :
    check_response (.str "oops") =
      .error (.typeError "Некорректный тип данных: <class \x27str\x27>")
    ∧ check_response (.dict []) = .error (.keyError "Отсутствует ключ \"homeworks\"")
    ∧ check_response (.dict [("homeworks", .str "zz")]) =
      .error (.typeError "Некорректный тип данных <class \x27str\x27>")
    ∧ check_response (.dict [("homeworks", .list [])]) = .ok (.dict [])
    ∧ check_response (.dict [("homeworks", .list [.int 5])]) = .ok (.int 5) :=
  ⟨(check_response_shape (.str "oops")).1 (fun kvs => by simp),
   ((check_response_shape (.dict [])).2 [] rfl).1 rfl,
   (((check_response_shape (.dict [("homeworks", .str "zz")])).2 _ rfl).2
     (.str "zz") rfl).1 (fun l => by simp),
   (((check_response_shape (.dict [("homeworks", .list [])])).2 _ rfl).2
     (.list []) rfl).2.1 rfl,
   (((check_response_shape (.dict [("homeworks", .list [.int 5])])).2 _ rfl).2
     (.list [.int 5]) rfl).2.2 (.int 5) [] rfl⟩

/-- Claim C9: if any of the three required environment credentials is
absent, `check_tokens` returns `false` and `main` exits before creating the
bot client, before any network call and without entering the poll loop. -/
theorem missing_credentials_exit (practicumToken telegramToken telegramChatId : Option String)
    (startTime : Int)
    (h : practicumToken = Option.none ∨ telegramToken = Option.none ∨
      telegramChatId = Option.none) :
    check_tokens practicumToken telegramToken telegramChatId = false
    ∧ main_start practicumToken telegramToken telegramChatId startTime = .exit := by
  have hf : check_tokens practicumToken telegramToken telegramChatId = false := by
    rcases h with h | h | h
    · subst h
      simp [check_tokens, envTruthy]
    · subst h
      simp [check_tokens, envTruthy]
    · subst h
      simp [check_tokens, envTruthy]
  refine ⟨hf, ?_⟩
  unfold main_start
  rw [hf]
  rfl

/-- Witness for `missing_credentials_exit` with the first credential
missing. -/
theorem missing_credentials_exit_witness :
    check_tokens Option.none (Option.some "tg-token") (Option.some "chat-id") = false
    ∧ main_start Option.none (Option.some "tg-token") (Option.some "chat-id") 0 = .exit :=
  missing_credentials_exit Option.none (Option.some "tg-token") (Option.some "chat-id") 0
    (Or.inl rfl)

/-- Claim C10: on a successful (HTTP 200) response decoding to a mapping,
the loop always overwrites the cursor with the `.get` of `current_date`
without any validation — in particular, when the mapping lacks the
`current_date` key the new cursor is `{'from_date': None}` rather than a
failure or the previous cursor. -/
theorem cursor_overwritten_without_current_date (st : LoopState) (sendFails : Bool)
    (kvs : List (String × PyVal)) :
    ((run_cycle st { http := .resp 200 (.dict kvs), sendFails := sendFails }).state.timestamp =
      .dict [("from_date", (dictLookup kvs "current_date").getD .null)])
    ∧ (dictLookup kvs "current_date" = Option.none →
        (run_cycle st { http := .resp 200 (.dict kvs), sendFails := sendFails }).state.timestamp =
          .dict [("from_date", .null)]) := by
  have hts : (run_cycle st
      { http := .resp 200 (.dict kvs), sendFails := sendFails }).state.timestamp =
      .dict [("from_date", (dictLookup kvs "current_date").getD .null)] := by
    rw [run_cycle_timestamp, try_phase_timestamp]
    dsimp only
    rcases hlk : dictLookup kvs "current_date" with _ | v
    · simp [get_api_answer, pyGet, hlk]
    · simp [get_api_answer, pyGet, hlk]
  refine ⟨hts, fun hlk => ?_⟩
  rw [hts, hlk]
  rfl

/-- Witness for `cursor_overwritten_without_current_date` on a mapping
without `current_date`. -/
theorem cursor_overwritten_without_current_date_witness :
    (run_cycle { timestamp := .dict [("from_date", .int 0)], previous_message := "" }
        { http := .resp 200 (.dict [("homeworks", .list [])]), sendFails := false }).state.timestamp =
      .dict [("from_date", .null)] :=
  (cursor_overwritten_without_current_date
    { timestamp := .dict [("from_date", .int 0)], previous_message := "" }
    false [("homeworks", .list [])]).2 rfl
